import Mathlib

/-!
Verification development for the Zeitgeist chat client.

The definitions below are a shallow embedding of the optimistic-send /
real-time-reconciliation slice of `src/screens/ChatScreen.tsx` together with
the pieces of `src/utils/constants.ts` and `src/utils/errorHandler.ts` it
uses.  React `useState` state is made explicit as a `ChatState` record and
each event handler of the component becomes a function from (environment ×
state) to state; a `setX` call is modelled as the corresponding field update,
applied before the next event runs.  Timestamps (`Date` values, `Date.now()`)
are modelled as natural numbers (epoch milliseconds).
-/

namespace Zeitgeist

/-- Model of JavaScript `String.prototype.trim` (a host builtin, not repo
code): drop Unicode whitespace from both ends of the string.  `Char.isWhitespace`
covers the ASCII whitespace characters that matter here. -/
def jsTrim (s : String) : String :=
  ⟨((s.data.dropWhile Char.isWhitespace).reverse.dropWhile Char.isWhitespace).reverse⟩

/-- Character-list test: does `hay` start with `needle`?  Used to model
`String.prototype.includes`. -/
def startsWithChars : List Char → List Char → Bool
  | _, [] => true
  | [], _ :: _ => false
  | a :: as, b :: bs => a == b && startsWithChars as bs

/-- Character-list substring test, modelling `String.prototype.includes`. -/
def containsChars : List Char → List Char → Bool
  | [], needle => needle.isEmpty
  | a :: rest, needle => startsWithChars (a :: rest) needle || containsChars rest needle

/-- Model of JavaScript `hay.includes(needle)` for strings. -/
def jsIncludes (hay needle : String) : Bool :=
  containsChars hay.data needle.data

/-! ## Constants (`src/utils/constants.ts`) -/

/-- `MESSAGE_CONFIG` from `src/utils/constants.ts` (fields used by the chat
screen). -/
structure MessageConfig where
  MAX_LENGTH : Nat
  MIN_LENGTH : Nat
  BATCH_SIZE : Nat
deriving DecidableEq, Repr

def MESSAGE_CONFIG : MessageConfig :=
  { MAX_LENGTH := 500, MIN_LENGTH := 1, BATCH_SIZE := 50 }

/-- `ERROR_MESSAGES` from `src/utils/constants.ts`. -/
structure ErrorMessages where
  NETWORK : String
  GENERIC : String
  PERMISSION_DENIED : String
  RATE_LIMITED : String
  INVALID_INPUT : String
deriving DecidableEq, Repr

def ERROR_MESSAGES : ErrorMessages :=
  { NETWORK := "Network error. Please check your connection."
    GENERIC := "Something went wrong. Please try again."
    PERMISSION_DENIED := "Permission denied. Please check your account settings."
    RATE_LIMITED := "Too many requests. Please wait before trying again."
    INVALID_INPUT := "Please check your input and try again." }

/-! ## Data model (`src/screens/ChatScreen.tsx`) -/

/-- The `status` field of a chat-screen `Message`: `"sending" | "sent" | "failed"`. -/
inductive Status where
  | sending
  | sent
  | failed
deriving DecidableEq, Repr

/-- The `Message` interface of `src/screens/ChatScreen.tsx`. -/
structure Message where
  id : String
  text : String
  username : String
  userId : String
  timestamp : Nat
  status : Status
deriving DecidableEq, Repr

/-- The authenticated principal (the `User` interface of
`src/contexts/AuthContext.tsx`, fields read by the chat screen). -/
structure User where
  id : String
  username : String
deriving DecidableEq, Repr

/-- A raw Firestore document as seen by the `onSnapshot` callback: `doc.id`
plus the fields `doc.data()` may or may not carry.  A `none` field models a
missing / falsy field in the document. -/
structure SnapshotDoc where
  id : String
  text : Option String
  username : Option String
  userId : Option String
  timestamp : Option Nat
deriving DecidableEq, Repr

/-- The mutable component state of `ChatScreen` that the claims concern:
`messages`, `newMessage` and `sending` (`useState` hooks). -/
structure ChatState where
  messages : List Message
  newMessage : String
  sending : Bool
deriving DecidableEq, Repr

/-! ## Error handling (`src/utils/errorHandler.ts`) -/

/-- A JavaScript error value as inspected by `ErrorHandler.handle`: optional
`code`, `message` and `name` properties.  `none` models an absent property. -/
structure JsError where
  code : Option String
  message : Option String
  name : Option String
deriving DecidableEq, Repr

/-- The `AppError` interface of `src/utils/errorHandler.ts`. -/
structure AppError where
  code : String
  message : String
  details : Option JsError
  context : Option String
deriving DecidableEq, Repr

/-- The `errorMap` table inside `ErrorHandler.handleFirebaseError`. -/
def firebaseErrorMap : List (String × String) :=
  [("auth/invalid-phone-number", "Invalid phone number format."),
   ("auth/missing-phone-number", "Phone number is required."),
   ("auth/quota-exceeded", "SMS quota exceeded. Please try again later."),
   ("auth/invalid-verification-code", "Invalid verification code."),
   ("auth/code-expired", "Verification code has expired."),
   ("auth/too-many-requests", "Too many requests. Please try again later."),
   ("auth/user-disabled", "Your account has been disabled. Please contact support."),
   ("auth/operation-not-allowed", "This operation is not allowed."),
   ("permission-denied", ERROR_MESSAGES.PERMISSION_DENIED),
   ("unavailable", "Service temporarily unavailable. Please try again."),
   ("deadline-exceeded", "Request timeout. Please try again."),
   ("resource-exhausted", ERROR_MESSAGES.RATE_LIMITED),
   ("unauthenticated", "Please log in to continue."),
   ("invalid-argument", ERROR_MESSAGES.INVALID_INPUT),
   ("storage/unauthorized", "Unauthorized access to storage."),
   ("storage/canceled", "Upload canceled."),
   ("storage/unknown", "Unknown storage error occurred.")]

/-- `ErrorHandler.handleFirebaseError`: map a Firebase error to an `AppError`,
keeping the original error in `details` and falling back to the generic
message when the code is unknown. -/
def handleFirebaseError (error : JsError) : AppError :=
  { code := error.code.getD ""
    message := (firebaseErrorMap.lookup (error.code.getD "")).getD ERROR_MESSAGES.GENERIC
    details := some error
    context := none }

/-- `ErrorHandler.handle`: classify an arbitrary thrown error into an
`AppError`.  A truthy (present, non-empty) `code` marks a Firebase error;
otherwise a message containing `"network"` or the name `"NetworkError"` marks
a network error; anything else is generic.  Every branch records the
underlying error in `details`. -/
def ErrorHandler.handle (error : JsError) (context : Option String) : AppError :=
  if error.code.getD "" ≠ "" then
    handleFirebaseError error
  else if jsIncludes (error.message.getD "") "network" || error.name == some "NetworkError" then
    { code := "NETWORK_ERROR", message := ERROR_MESSAGES.NETWORK
      details := some error, context := context }
  else
    { code := "GENERIC_ERROR", message := ERROR_MESSAGES.GENERIC
      details := some error, context := context }

/-! ## Subscription delivery (`ChatScreen` `onSnapshot` handler, lines 136-154) -/

/-- Body of the `snapshot.forEach` loop: a document lacking a resolved
`timestamp` yields nothing; otherwise it is mapped to a `Message` with
status `"sent"` and falsy fields replaced by defaults (`""` for `text` and
`userId`, `"Unknown"` for `username`). -/
def docToMessage (d : SnapshotDoc) : Option Message :=
  match d.timestamp with
  | none => none
  | some ts =>
      some { id := d.id
             text := d.text.getD ""
             username := d.username.getD "Unknown"
             userId := d.userId.getD ""
             timestamp := ts
             status := Status.sent }

/-- The `onSnapshot` success callback: build `messagesData` from the snapshot
documents, reverse it (the query delivers newest-first; display is
oldest-first) and replace the whole `messages` state with the result
(`setMessages(sortedMessages)`). -/
def onSnapshotUpdate (docs : List SnapshotDoc) (st : ChatState) : ChatState :=
  { st with messages := (docs.filterMap docToMessage).reverse }

/-! ## Optimistic send (`ChatScreen.sendMessage`, lines 230-303) -/

/-- `isMessageValid` (lines 101-106): the trimmed text is at least
`MIN_LENGTH` characters and the raw text at most `MAX_LENGTH` characters. -/
def isMessageValid (newMessage : String) : Bool :=
  decide (MESSAGE_CONFIG.MIN_LENGTH ≤ (jsTrim newMessage).length) &&
  decide (newMessage.length ≤ MESSAGE_CONFIG.MAX_LENGTH)

/-- The temporary id generated for an optimistic message. -/
def tempIdOf (now : Nat) : String :=
  "temp_" ++ toString now

/-- The payload handed to `addDoc` (the server assigns the timestamp via
`serverTimestamp()`, so it does not appear here). -/
structure WritePayload where
  text : String
  username : String
  userId : String
deriving DecidableEq, Repr

/-- Result of the synchronous phase of `sendMessage`: the updated component
state, the pending write request (`none` when the guard rejected and no
network call is issued) and the alert shown to the user (only the offline
alert exists on this path). -/
structure SendBegin where
  state : ChatState
  write : Option (String × WritePayload)
  alert : Option String
deriving DecidableEq, Repr

/-- The guard at the top of `sendMessage`:
`!isMessageValid || !user || sending || !isConnected`. -/
def sendGuardFails (user : Option User) (isConnected : Bool) (st : ChatState) : Bool :=
  !(isMessageValid st.newMessage) || user.isNone || st.sending || !isConnected

/-- Synchronous phase of `sendMessage` (lines 230-262): on guard failure
return with no state change, no write, and an alert only in the offline case;
otherwise trim the text, create the temporary message with a fresh temp id,
status `"sending"`, the local timestamp and the author's id/name, append it
to `messages`, clear the input, set `sending`, and issue the write request.
The returned write is paired with the temp id the completion handlers use. -/
def sendMessageBegin (user : Option User) (isConnected : Bool) (now : Nat)
    (st : ChatState) : SendBegin :=
  if sendGuardFails user isConnected st then
    { state := st
      write := none
      alert := if !isConnected then some "No Connection" else none }
  else
    match user with
    | none =>
        { state := st, write := none, alert := none }
    | some u =>
        let messageText := jsTrim st.newMessage
        let tempId := tempIdOf now
        let tempMessage : Message :=
          { id := tempId
            text := messageText
            username := u.username
            userId := u.id
            timestamp := now
            status := Status.sending }
        { state := { messages := st.messages ++ [tempMessage]
                     newMessage := ""
                     sending := true }
          write := some (tempId, { text := messageText, username := u.username, userId := u.id })
          alert := none }

/-- Write-success continuation of `sendMessage` (lines 272-273 and the
`finally` block): remove the temporary message by id — the persisted copy
arrives only through the listener — and clear `sending`. -/
def sendMessageSuccess (tempId : String) (st : ChatState) : ChatState :=
  { st with messages := st.messages.filter (fun msg => msg.id ≠ tempId)
            sending := false }

/-- Write-failure continuation of `sendMessage` (the `catch` and `finally`
blocks, lines 279-302): flip the temporary message's status to `"failed"` in
place, clear `sending`, and produce the typed `AppError` from
`ErrorHandler.handle(error, "send_message")` that is surfaced via the retry
alert. -/
def sendMessageFailure (tempId : String) (error : JsError) (st : ChatState) :
    ChatState × AppError :=
  ({ st with
      messages := st.messages.map (fun msg =>
        if msg.id = tempId then { msg with status := Status.failed } else msg)
      sending := false },
   ErrorHandler.handle error (some "send_message"))

/-- `handleRetryMessage` (lines 386-396): look the failed message up by id;
if present, put its text back into the input and remove the failed entry.
The deferred `sendMessage()` call it schedules (the 100 ms `setTimeout`) is
modelled by `retryThenDeferredSend` below, which accounts for the closure
capture of the scheduled callback. -/
def handleRetryMessage (messageId : String) (st : ChatState) : ChatState :=
  match st.messages.find? (fun msg => msg.id == messageId) with
  | none => st
  | some failedMessage =>
      { st with
          newMessage := failedMessage.text
          messages := st.messages.filter (fun msg => msg.id ≠ messageId) }

/-- The `sendMessage` callback as the closure it really is: `capturedText` and
`capturedSending` are the `newMessage` and `sending` values the `useCallback`
closure captured from the render that created it, while the functional
`setMessages` updater and the other `set` calls act on the committed state
`st`.  A direct invocation from the send button sees
`capturedText = st.newMessage` and `capturedSending = st.sending`
(`sendMessageBegin_eq_closure`); the closure invoked by `handleRetryMessage`'s
`setTimeout` was created by the render current at retry time and therefore
captured the pre-retry values. -/
def sendMessageClosure (user : Option User) (isConnected : Bool)
    (capturedText : String) (capturedSending : Bool) (now : Nat)
    (st : ChatState) : SendBegin :=
  if !(isMessageValid capturedText) || user.isNone || capturedSending || !isConnected then
    { state := st
      write := none
      alert := if !isConnected then some "No Connection" else none }
  else
    match user with
    | none =>
        { state := st, write := none, alert := none }
    | some u =>
        let messageText := jsTrim capturedText
        let tempId := tempIdOf now
        let tempMessage : Message :=
          { id := tempId
            text := messageText
            username := u.username
            userId := u.id
            timestamp := now
            status := Status.sending }
        { state := { messages := st.messages ++ [tempMessage]
                     newMessage := ""
                     sending := true }
          write := some (tempId, { text := messageText, username := u.username, userId := u.id })
          alert := none }

/-- `handleRetryMessage` followed by the deferred `sendMessage()` it schedules
(lines 386-396): after 100 ms the `setTimeout` callback invokes the
`sendMessage` closure of the render current at retry time, whose captured
`newMessage` and `sending` are the pre-retry values `st.newMessage` and
`st.sending` — the `setNewMessage(failedMessage.text)` inside
`handleRetryMessage` only reaches closures created by later renders — while
the closure's state updates apply to the post-retry committed state. -/
def retryThenDeferredSend (user : Option User) (isConnected : Bool) (later : Nat)
    (messageId : String) (st : ChatState) : SendBegin :=
  sendMessageClosure user isConnected st.newMessage st.sending later
    (handleRetryMessage messageId st)

/-! ## Subscription handle -/

/-- Modelled from the spec: the Synchronizer subscription handle.  The
`unsubscribe` function returned by `onSnapshot` is Firestore SDK code, not
part of this repository; per spec §4.1 `close` releases the subscription and
is safe to call multiple times, and per §5 a closed handle's late-arriving
delivery callback is a no-op. -/
structure SubscriptionHandle where
  closed : Bool
deriving DecidableEq, Repr

/-- Modelled from the spec: `close(handle)` marks the handle closed; it does
not touch the rendered list. -/
def closeHandle (_h : SubscriptionHandle) : SubscriptionHandle :=
  { closed := true }

/-- Modelled from the spec: a delivery callback arriving on a closed handle
mutates nothing; on an open handle it is the `onSnapshot` update. -/
def deliverBatch (h : SubscriptionHandle) (docs : List SnapshotDoc)
    (st : ChatState) : ChatState :=
  if h.closed then st else onSnapshotUpdate docs st

/-! ## Helper lemmas shared by several claim theorems -/

/-- A delivered batch is sorted newest-first by the query's
`orderBy("timestamp", "desc")`: for any two documents in delivery order, the
later one's resolved timestamp is at most the earlier one's. -/
def batchSortedDesc (docs : List SnapshotDoc) : Prop :=
  docs.Pairwise (fun a b => ∀ ta tb, a.timestamp = some ta → b.timestamp = some tb → tb ≤ ta)

theorem sendGuardFails_false (u : User) (st : ChatState)
    (hvalid : isMessageValid st.newMessage = true) (hsending : st.sending = false) :
    sendGuardFails (some u) true st = false := by
  simp [sendGuardFails, hvalid, hsending]

theorem sendMessageBegin_of_valid (u : User) (now : Nat) (st : ChatState)
    (hvalid : isMessageValid st.newMessage = true) (hsending : st.sending = false) :
    sendMessageBegin (some u) true now st =
      { state := { messages := st.messages ++
            [{ id := tempIdOf now
               text := jsTrim st.newMessage
               username := u.username
               userId := u.id
               timestamp := now
               status := Status.sending }]
                   newMessage := ""
                   sending := true }
        write := some (tempIdOf now,
          { text := jsTrim st.newMessage, username := u.username, userId := u.id })
        alert := none } := by
  unfold sendMessageBegin
  rw [sendGuardFails_false u st hvalid hsending]
  rfl

theorem sendMessageBegin_of_guard (user : Option User) (isConnected : Bool) (now : Nat)
    (st : ChatState) (hguard : sendGuardFails user isConnected st = true) :
    sendMessageBegin user isConnected now st =
      { state := st
        write := none
        alert := if !isConnected then some "No Connection" else none } := by
  unfold sendMessageBegin
  rw [hguard]
  rfl

theorem sendMessageBegin_eq_closure (user : Option User) (isConnected : Bool)
    (now : Nat) (st : ChatState) :
    sendMessageBegin user isConnected now st =
      sendMessageClosure user isConnected st.newMessage st.sending now st := by
  unfold sendMessageBegin sendMessageClosure sendGuardFails
  rfl

theorem ErrorHandler.handle_details (error : JsError) (context : Option String) :
    (ErrorHandler.handle error context).details = some error := by
  unfold ErrorHandler.handle handleFirebaseError
  split
  · rfl
  · split <;> rfl

theorem filterMap_docToMessage_eq (docs : List SnapshotDoc) :
    docs.filterMap docToMessage
      = (docs.filter (fun d => d.timestamp.isSome)).map (fun d =>
          { id := d.id
            text := d.text.getD ""
            username := d.username.getD "Unknown"
            userId := d.userId.getD ""
            timestamp := d.timestamp.getD 0
            status := Status.sent }) := by
  induction docs with
  | nil => rfl
  | cons d rest ih =>
      cases h : d.timestamp <;>
        simp [List.filterMap_cons, List.filter_cons, docToMessage, h, ih]

theorem handleRetryMessage_of_find (st : ChatState) (fm : Message)
    (hfind : st.messages.find? (fun m => m.id == fm.id) = some fm) :
    handleRetryMessage fm.id st =
      { st with
          newMessage := fm.text
          messages := st.messages.filter (fun m => m.id ≠ fm.id) } := by
  unfold handleRetryMessage
  rw [hfind]

/-! ## Claim theorems -/

/-- C1, counterexample: a pending (status `"sending"`) message sits in the
rendered list while its write is in flight; applying a subscription delivery
batch does NOT preserve it at the tail — the handler replaces the whole list
with the batch contents and the pending entry vanishes. -/
theorem C1_counterexample :
    (⟨[⟨"temp_5", "hi", "alice", "u1", 5, Status.sending⟩], "", true⟩ : ChatState).messages.head? =
      some ⟨"temp_5", "hi", "alice", "u1", 5, Status.sending⟩ ∧
    (onSnapshotUpdate [⟨"d1", some "yo", some "bob", some "u2", some 3⟩]
        ⟨[⟨"temp_5", "hi", "alice", "u1", 5, Status.sending⟩], "", true⟩).messages =
      [⟨"d1", "yo", "bob", "u2", 3, Status.sent⟩] ∧
    (⟨"temp_5", "hi", "alice", "u1", 5, Status.sending⟩ : Message) ∉
      (onSnapshotUpdate [⟨"d1", some "yo", some "bob", some "u2", some 3⟩]
        ⟨[⟨"temp_5", "hi", "alice", "u1", 5, Status.sending⟩], "", true⟩).messages := by
  decide

/-- C1, amended: applying a subscription delivery batch replaces the entire
rendered list with the batch contents; every entry of the new list has status
`"sent"`, so every still-pending locally originated message is discarded
rather than preserved at the tail. -/
theorem C1_snapshot_discards_pending (docs : List SnapshotDoc) (st : ChatState)
    (p : Message) (_hp : p ∈ st.messages) (hpending : p.status = Status.sending) :
    (onSnapshotUpdate docs st).messages = (docs.filterMap docToMessage).reverse ∧
    (∀ m ∈ (onSnapshotUpdate docs st).messages, m.status = Status.sent) ∧
    p ∉ (onSnapshotUpdate docs st).messages := by
  have hsent : ∀ m ∈ (onSnapshotUpdate docs st).messages, m.status = Status.sent := by
    intro m hm
    simp only [onSnapshotUpdate, List.mem_reverse, List.mem_filterMap] at hm
    obtain ⟨d, -, hd⟩ := hm
    unfold docToMessage at hd
    cases h : d.timestamp <;> rw [h] at hd
    · exact Option.noConfusion hd
    · injection hd with hd'
      subst hd'
      rfl
  refine ⟨rfl, hsent, fun hmem => ?_⟩
  have hps := hsent p hmem
  rw [hpending] at hps
  exact Status.noConfusion hps

/-- C1 witness: the amended theorem applied at a concrete pending message and
batch. -/
theorem C1_witness :
    (⟨"temp_9", "yo", "carol", "u3", 9, Status.sending⟩ : Message) ∉
      (onSnapshotUpdate [⟨"dA", some "m1", some "dan", some "u4", some 2⟩]
        ⟨[⟨"temp_9", "yo", "carol", "u3", 9, Status.sending⟩], "", true⟩).messages :=
  (C1_snapshot_discards_pending
    [⟨"dA", some "m1", some "dan", some "u4", some 2⟩]
    ⟨[⟨"temp_9", "yo", "carol", "u3", 9, Status.sending⟩], "", true⟩
    ⟨"temp_9", "yo", "carol", "u3", 9, Status.sending⟩
    (by decide) rfl).2.2

/-- C2, counterexample: `"hi"` trims to length 2 (within 1..500) and the user
is authenticated, yet with a prior send still in flight (`sending = true`)
`sendMessage` appends nothing and issues no write — the claim's unconditional
"appends exactly one pending message" fails. -/
theorem C2_counterexample :
    (jsTrim "hi").length = 2 ∧
    (sendMessageBegin (some ⟨"u1", "alice"⟩) true 5 ⟨[], "hi", true⟩).state.messages = [] ∧
    (sendMessageBegin (some ⟨"u1", "alice"⟩) true 5 ⟨[], "hi", true⟩).write = none := by
  decide

/-- C2, amended: when the text passes the code's validity check (trimmed
length at least 1 AND raw length at most 500), the user is authenticated, the
client is connected and no other send is in flight, `sendMessage`
synchronously appends exactly one pending message — fresh temp id, status
`"sending"`, trimmed text, local timestamp, author id and name — clears the
input, and issues exactly one write; nothing else is added or removed. -/
theorem C2_optimistic_insert (u : User) (now : Nat) (st : ChatState)
    (hvalid : isMessageValid st.newMessage = true)
    (hsending : st.sending = false) :
    sendMessageBegin (some u) true now st =
      { state := { messages := st.messages ++
            [{ id := tempIdOf now
               text := jsTrim st.newMessage
               username := u.username
               userId := u.id
               timestamp := now
               status := Status.sending }]
                   newMessage := ""
                   sending := true }
        write := some (tempIdOf now,
          { text := jsTrim st.newMessage, username := u.username, userId := u.id })
        alert := none } :=
  sendMessageBegin_of_valid u now st hvalid hsending

/-- C2 witness: the amended theorem evaluated on a concrete valid input. -/
theorem C2_witness :
    sendMessageBegin (some ⟨"u7", "bob"⟩) true 42 ⟨[], " hey ", false⟩ =
      { state := { messages := [⟨"temp_42", "hey", "bob", "u7", 42, Status.sending⟩]
                   newMessage := ""
                   sending := true }
        write := some ("temp_42", ⟨"hey", "bob", "u7"⟩)
        alert := none } :=
  (C2_optimistic_insert ⟨"u7", "bob"⟩ 42 ⟨[], " hey ", false⟩ (by decide) rfl).trans (by decide)

/-- C3, counterexample: for the all-whitespace input (empty after trimming),
with the client connected, `sendMessage` leaves the state untouched and
issues no write — but it surfaces no `ValidationError` either: the call
returns with no error value and no alert. -/
theorem C3_counterexample :
    (jsTrim "   ").length = 0 ∧
    sendMessageBegin (some ⟨"u1", "alice"⟩) true 9 ⟨[], "   ", false⟩ =
      { state := ⟨[], "   ", false⟩, write := none, alert := none } := by
  decide

/-- C3, amended: for input failing the validity check, `sendMessage` inserts
nothing, issues no network write and leaves the rendered list (indeed the
whole state) unchanged — but it rejects silently: no `ValidationError` is
returned and (while connected) no alert is shown; invalid input is prevented
upstream by the disabled send button and the input's `maxLength`. -/
theorem C3_invalid_input_silent (user : Option User) (now : Nat) (st : ChatState)
    (hinvalid : isMessageValid st.newMessage = false) :
    sendMessageBegin user true now st =
      { state := st, write := none, alert := none } := by
  have hguard : sendGuardFails user true st = true := by
    simp [sendGuardFails, hinvalid]
  rw [sendMessageBegin_of_guard user true now st hguard]
  rfl

/-- C3 witness: the amended theorem evaluated on a concrete invalid input
(empty text) with a nonempty rendered list. -/
theorem C3_witness :
    sendMessageBegin (some ⟨"u2", "carol"⟩) true 11
        ⟨[⟨"m1", "old", "dan", "u4", 1, Status.sent⟩], "", false⟩ =
      { state := ⟨[⟨"m1", "old", "dan", "u4", 1, Status.sent⟩], "", false⟩
        write := none
        alert := none } :=
  C3_invalid_input_silent (some ⟨"u2", "carol"⟩) 11
    ⟨[⟨"m1", "old", "dan", "u4", 1, Status.sent⟩], "", false⟩ (by decide)

/-- C4: after any sequence of delivery batches, the rendered list (which the
handler replaces wholesale, so its confirmed portion is all of it) equals
exactly the most recently delivered batch's contents, and — given that the
query delivers newest-first — it is ordered ascending by timestamp (oldest
first); no stale or partially applied batch survives. -/
theorem C4_delivery_replaces_confirmed (history : List (List SnapshotDoc))
    (docs : List SnapshotDoc) (st : ChatState) (hsorted : batchSortedDesc docs) :
    (onSnapshotUpdate docs (history.foldl (fun s b => onSnapshotUpdate b s) st)).messages
        = (docs.filterMap docToMessage).reverse ∧
    List.Pairwise (fun m1 m2 : Message => m1.timestamp ≤ m2.timestamp)
      (onSnapshotUpdate docs (history.foldl (fun s b => onSnapshotUpdate b s) st)).messages := by
  refine ⟨rfl, ?_⟩
  show List.Pairwise _ (docs.filterMap docToMessage).reverse
  rw [List.pairwise_reverse]
  apply List.Pairwise.filterMap docToMessage _ hsorted
  intro d d' hdd' m hm m' hm'
  unfold docToMessage at hm hm'
  cases h : d.timestamp <;> rw [h] at hm
  · exact Option.noConfusion hm
  · cases h' : d'.timestamp <;> rw [h'] at hm'
    · exact Option.noConfusion hm'
    · injection hm with hm1
      injection hm' with hm2
      subst hm1
      subst hm2
      exact hdd' _ _ h h'

/-- C4 witness: two successive batches; the rendered list reflects only the
second, in ascending timestamp order. -/
theorem C4_witness :
    (onSnapshotUpdate
        [⟨"d2", some "newer", some "bob", some "u2", some 8⟩,
         ⟨"d1", some "older", some "alice", some "u1", some 4⟩]
        (onSnapshotUpdate [⟨"d0", some "stale", some "eve", some "u5", some 1⟩]
          ⟨[], "", false⟩)).messages =
      [⟨"d1", "older", "alice", "u1", 4, Status.sent⟩,
       ⟨"d2", "newer", "bob", "u2", 8, Status.sent⟩] :=
  ((C4_delivery_replaces_confirmed
      [[⟨"d0", some "stale", some "eve", some "u5", some 1⟩]]
      [⟨"d2", some "newer", some "bob", some "u2", some 8⟩,
       ⟨"d1", some "older", some "alice", some "u1", some 4⟩]
      ⟨[], "", false⟩
      (by simp [batchSortedDesc])).1).trans (by decide)

/-- C5: when the write issued by a send succeeds, the handler removes exactly
the entries bearing that send's temp id: afterwards no entry with the temp id
remains, the result is a sublist of the previous list (so nothing — in
particular no fabricated persisted copy — was inserted), every message with a
different id is retained, and the `sending` flag is cleared. -/
theorem C5_success_removes_only_temp (tempId : String) (st : ChatState) :
    (sendMessageSuccess tempId st).messages.Sublist st.messages ∧
    (∀ m ∈ (sendMessageSuccess tempId st).messages, m.id ≠ tempId) ∧
    (∀ m ∈ st.messages, m.id ≠ tempId → m ∈ (sendMessageSuccess tempId st).messages) ∧
    (sendMessageSuccess tempId st).sending = false := by
  refine ⟨List.filter_sublist _, ?_, ?_, rfl⟩
  · intro m hm
    have h := List.of_mem_filter hm
    simpa using h
  · intro m hm hne
    exact List.mem_filter.2 ⟨hm, by simpa using hne⟩

/-- C5 witness: a concrete success completion removes the pending entry and
keeps the confirmed one. -/
theorem C5_witness :
    (⟨"m9", "kept", "dan", "u4", 3, Status.sent⟩ : Message) ∈
      (sendMessageSuccess "temp_77"
        ⟨[⟨"m9", "kept", "dan", "u4", 3, Status.sent⟩,
          ⟨"temp_77", "bye", "alice", "u1", 77, Status.sending⟩], "", true⟩).messages ∧
    (∀ m ∈ (sendMessageSuccess "temp_77"
        ⟨[⟨"m9", "kept", "dan", "u4", 3, Status.sent⟩,
          ⟨"temp_77", "bye", "alice", "u1", 77, Status.sending⟩], "", true⟩).messages,
      m.id ≠ "temp_77") :=
  ⟨(C5_success_removes_only_temp "temp_77"
      ⟨[⟨"m9", "kept", "dan", "u4", 3, Status.sent⟩,
        ⟨"temp_77", "bye", "alice", "u1", 77, Status.sending⟩], "", true⟩).2.2.1
      ⟨"m9", "kept", "dan", "u4", 3, Status.sent⟩ (by decide) (by decide),
   (C5_success_removes_only_temp "temp_77"
      ⟨[⟨"m9", "kept", "dan", "u4", 3, Status.sent⟩,
        ⟨"temp_77", "bye", "alice", "u1", 77, Status.sending⟩], "", true⟩).2.1⟩

/-- C6: when the write issued by a send fails, the entry bearing the temp id
is flipped to status `"failed"` in place — the list keeps its length, and
position by position every entry is unchanged except that entries with the
temp id get `status := failed` with all other fields preserved — the
`sending` flag is cleared, and the typed `AppError` surfaced to the caller
carries the underlying cause in `details`. -/
theorem C6_failure_marks_failed_in_place (tempId : String) (error : JsError) (st : ChatState) :
    (sendMessageFailure tempId error st).1.messages.length = st.messages.length ∧
    (∀ i : Nat, (sendMessageFailure tempId error st).1.messages[i]? =
        (st.messages[i]?).map (fun m =>
          if m.id = tempId then { m with status := Status.failed } else m)) ∧
    (sendMessageFailure tempId error st).1.sending = false ∧
    (sendMessageFailure tempId error st).2.details = some error := by
  refine ⟨?_, ?_, rfl, ErrorHandler.handle_details error (some "send_message")⟩
  · simp [sendMessageFailure]
  · intro i
    simp [sendMessageFailure, List.getElem?_map]

/-- C7, code bug: at the canonical failing input — one failed message in the
list and the input box empty, exactly as the original failed send left it —
retry removes the failed entry, but the deferred `sendMessage()` runs the
stale closure whose captured input is the pre-retry `""`: the validity guard
rejects it, so no new pending entry is created and no write is issued.  The
final state is an empty list with the original text parked in the input box —
the re-send with the original text that the claim (and the code's own
`setNewMessage(failedMessage.text)`) intends never happens. -/
theorem C7_stale_closure_drops_retry :
    retryThenDeferredSend (some ⟨"u1", "alice"⟩) true 2 "temp_1"
        ⟨[⟨"temp_1", "retry me", "alice", "u1", 1, Status.failed⟩], "", false⟩ =
      { state := ⟨[], "retry me", false⟩, write := none, alert := none } := by
  decide

/-- C8, counterexample: a first send leaves its pending entry with
`sending = true`; a second send invoked while that write is in flight (with
its own valid text) is dropped — no second pending entry, no second write —
refuting the claimed independence of concurrent sends. -/
theorem C8_counterexample :
    (sendMessageBegin (some ⟨"u1", "alice"⟩) true 10 ⟨[], "first", false⟩).state =
      ⟨[⟨"temp_10", "first", "alice", "u1", 10, Status.sending⟩], "", true⟩ ∧
    sendMessageBegin (some ⟨"u1", "alice"⟩) true 11
        ⟨[⟨"temp_10", "first", "alice", "u1", 10, Status.sending⟩], "second", true⟩ =
      { state := ⟨[⟨"temp_10", "first", "alice", "u1", 10, Status.sending⟩], "second", true⟩
        write := none
        alert := none } := by
  decide

/-- C8, amended: sends on the same page are serialized, not independent — the
`sending` flag guards `sendMessage`, so any send invoked while another send's
write is in flight is dropped: the state is unchanged and no write is
issued. -/
theorem C8_second_send_dropped (user : Option User) (isConnected : Bool) (now : Nat)
    (st : ChatState) (hsending : st.sending = true) :
    (sendMessageBegin user isConnected now st).state = st ∧
    (sendMessageBegin user isConnected now st).write = none := by
  have hguard : sendGuardFails user isConnected st = true := by
    simp [sendGuardFails, hsending]
  rw [sendMessageBegin_of_guard user isConnected now st hguard]
  exact ⟨rfl, rfl⟩

/-- C8 witness: the amended theorem on a concrete in-flight state. -/
theorem C8_witness :
    (sendMessageBegin (some ⟨"u9", "zed"⟩) true 99
        ⟨[⟨"temp_3", "one", "zed", "u9", 3, Status.sending⟩], "two", true⟩).state =
      ⟨[⟨"temp_3", "one", "zed", "u9", 3, Status.sending⟩], "two", true⟩ :=
  (C8_second_send_dropped (some ⟨"u9", "zed"⟩) true 99
    ⟨[⟨"temp_3", "one", "zed", "u9", 3, Status.sending⟩], "two", true⟩ rfl).1

/-- C9: closing an already-closed Synchronizer handle is a no-op — the handle
is unchanged, and a delivery arriving on it (before or after the extra close)
leaves the rendered list and confirmed state untouched; `closeHandle` is a
total function, so nothing is raised. -/
theorem C9_close_idempotent (h : SubscriptionHandle) (docs : List SnapshotDoc)
    (st : ChatState) (hclosed : h.closed = true) :
    closeHandle h = h ∧
    deliverBatch (closeHandle h) docs st = st ∧
    deliverBatch h docs st = st := by
  obtain ⟨b⟩ := h
  cases hclosed
  exact ⟨rfl, rfl, rfl⟩

/-- C9 witness: closing a concrete closed handle changes nothing and a
delivery on it is a no-op. -/
theorem C9_witness :
    closeHandle ⟨true⟩ = (⟨true⟩ : SubscriptionHandle) ∧
    deliverBatch (closeHandle ⟨true⟩) [⟨"dZ", none, none, none, some 1⟩] ⟨[], "", false⟩ =
      (⟨[], "", false⟩ : ChatState) :=
  ⟨(C9_close_idempotent ⟨true⟩ [⟨"dZ", none, none, none, some 1⟩] ⟨[], "", false⟩ rfl).1,
   (C9_close_idempotent ⟨true⟩ [⟨"dZ", none, none, none, some 1⟩] ⟨[], "", false⟩ rfl).2.1⟩

/-- C10: a delivery batch maps to the confirmed list by dropping exactly the
documents lacking a resolved timestamp and converting each remaining document
to a status-`"sent"` message with missing fields defaulted (`""` for text and
userId, `"Unknown"` for username); in particular the confirmed list has one
entry per timestamp-bearing document. -/
theorem C10_snapshot_document_mapping (docs : List SnapshotDoc) (st : ChatState) :
    (onSnapshotUpdate docs st).messages
      = ((docs.filter (fun d => d.timestamp.isSome)).map (fun d =>
          { id := d.id
            text := d.text.getD ""
            username := d.username.getD "Unknown"
            userId := d.userId.getD ""
            timestamp := d.timestamp.getD 0
            status := Status.sent })).reverse ∧
    (onSnapshotUpdate docs st).messages.length
      = (docs.filter (fun d => d.timestamp.isSome)).length := by
  constructor
  · show (docs.filterMap docToMessage).reverse = _
    rw [filterMap_docToMessage_eq]
  · show (docs.filterMap docToMessage).reverse.length = _
    rw [filterMap_docToMessage_eq, List.length_reverse, List.length_map]

end Zeitgeist
